import Mathlib

/-!
Shallow embedding of `src/covid19/data.py` (covid-19-notebooks).

The repository normalizes epidemiological tables into canonical xarray
arrays.  We embed:

* the CDM vocabulary and `cdm_check` (dimension/coordinate validation);
* a name-level shadow of the xarray pipelines in `jhu_global_to_xarray`,
  `jhu_usa_to_xarray` and `istat_to_xarray`, tracking the sets of
  dimension names and coordinate names through each xarray operation
  (`rename`, `set_coords`, `to_array`, `assign_coords`, `swap_dims`,
  `drop`);
* the two date-header parsers (`reformat` and the array builders);
* the location-join logic of `reformat` and of the array builders;
* the `(location, date)` accumulation loop of `reformat`;
* `ge2dayofyear` / `cl_eta2age` and the `time` column of
  `istat_to_pandas`;
* the dense-fill (`to_xarray().fillna(0)`) semantics of
  `istat_to_xarray`;
* the nearest-neighbour resampler `interp_on_observations`.

Machine floats in the source carry exact small values in every case we
reason about; they are embedded as `ℚ` (with Python's floor-`%` spelled
out), missing values (`NaN`) as `Option`, and pandas/numpy datetimes as
integer day offsets from 2020-01-01.
-/

namespace Covid19

/-! ## CDM vocabulary and `cdm_check` -/

/-- `CDM_DIMS` from the source: the permitted dimension names. -/
def CDM_DIMS : Finset String :=
  {"location", "time", "age_class", "dayofyear", "month", "year"}

/-- `CDM_COORDS = CDM_DIMS | {...}` from the source: the permitted
coordinate names. -/
def CDM_COORDS : Finset String :=
  CDM_DIMS ∪ {"country", "state", "region", "province", "lat", "lon"}

/-- The two `ValueError`s `cdm_check` can raise, each carrying the set of
offending names it formats into its message. -/
inductive CdmError where
  | invalidDims (names : Finset String)
  | invalidCoords (names : Finset String)
  deriving DecidableEq

/-- Name-level shadow of an `xarray.DataArray`: its set of dimension
names and its set of coordinate names.  `cdm_check` inspects nothing
else. -/
structure DaShadow where
  dims : Finset String
  coords : Finset String
  deriving DecidableEq

/-- `cdm_check` from the source: raise on `set(da.dims) - CDM_DIMS`
nonempty, else on `set(da.coords) - CDM_COORDS` nonempty, else return.
The embedding is a pure function of the array's name sets: it never
produces a modified array (the source reads `da` and only raises). -/
def cdm_check (da : DaShadow) : Except CdmError Unit :=
  if da.dims \ CDM_DIMS ≠ ∅ then
    .error (.invalidDims (da.dims \ CDM_DIMS))
  else if da.coords \ CDM_COORDS ≠ ∅ then
    .error (.invalidCoords (da.coords \ CDM_COORDS))
  else
    .ok ()

/-! ## Name-level shadows of the xarray operations used by the builders -/

/-- Name-level shadow of an `xarray.Dataset`: dimension names, coordinate
names, and the names of the plain data variables (the columns that have
not been promoted to coordinates). -/
structure DsShadow where
  dims : Finset String
  coords : Finset String
  dataVars : Finset String
  deriving DecidableEq

/-- Apply a rename mapping (`{old: new}`) to one name: names not in the
mapping pass through. -/
def applyRen (m : List (String × String)) (s : String) : String :=
  (m.lookup s).getD s

/-- `pd.read_csv(path).to_xarray()`: one dimension `index`, also a
coordinate; every CSV column becomes a data variable. -/
def readCsvShadow (cols : Finset String) : DsShadow :=
  ⟨{"index"}, {"index"}, cols⟩

/-- `Dataset.rename({old: new})` at the level of names. -/
def renameDs (m : List (String × String)) (ds : DsShadow) : DsShadow :=
  ⟨ds.dims.image (applyRen m), ds.coords.image (applyRen m),
    ds.dataVars.image (applyRen m)⟩

/-- `Dataset.set_coords(names)`: the named data variables become
coordinates. -/
def setCoordsDs (names : List String) (ds : DsShadow) : DsShadow :=
  ⟨ds.dims, ds.coords ∪ names.toFinset, ds.dataVars \ names.toFinset⟩

/-- `Dataset.drop(names)` on data variables (the USA builder drops its
identifier columns before `to_array`). -/
def dropDs (names : List String) (ds : DsShadow) : DsShadow :=
  ⟨ds.dims, ds.coords \ names.toFinset, ds.dataVars \ names.toFinset⟩

/-- `Dataset.to_array(newDim)`: the data-variable names become the values
of a new dimension coordinate `newDim`; the variable names themselves
disappear. -/
def toArrayDs (newDim : String) (ds : DsShadow) : DaShadow :=
  ⟨insert newDim ds.dims, insert newDim ds.coords⟩

/-- `DataArray.assign_coords({name: ...})`: adds coordinates. -/
def assignCoordsDa (names : List String) (da : DaShadow) : DaShadow :=
  ⟨da.dims, da.coords ∪ names.toFinset⟩

/-- `DataArray.swap_dims({old: new})`: dimension names are replaced along
the mapping (the new names are already coordinates); coordinate names are
unchanged. -/
def swapDimsDa (m : List (String × String)) (da : DaShadow) : DaShadow :=
  ⟨da.dims.image (applyRen m), da.coords⟩

/-- `DataArray.drop(names)`: removes the named coordinates. -/
def dropDa (names : List String) (da : DaShadow) : DaShadow :=
  ⟨da.dims, da.coords \ names.toFinset⟩

/-! ## The three builders, at the level of dimension/coordinate names

Each builder is parameterized by the set of date-column names of the
input CSV (`dateCols`); no name in the result depends on it. -/

/-- Name-level shadow of `jhu_global_to_xarray`.  The global CSV carries
the four geography columns plus one column per date. -/
def jhu_global_shadow (dateCols : Finset String) : DaShadow :=
  let ds := readCsvShadow
    ({"Province/State", "Country/Region", "Lat", "Long"} ∪ dateCols)
  let ds := renameDs
    [("Country/Region", "country"), ("Province/State", "state"),
      ("Lat", "lat"), ("Long", "lon")] ds
  let ds := setCoordsDs ["country", "state", "lat", "lon"] ds
  let da := toArrayDs "date" ds
  let da := assignCoordsDa ["time", "location"] da
  let da := swapDimsDa [("date", "time"), ("index", "location")] da
  dropDa ["index", "date", "state"] da

/-- Name-level shadow of `jhu_usa_to_xarray`.  The US CSV carries the
identifier and geography columns plus one column per date. -/
def jhu_usa_shadow (dateCols : Finset String) : DaShadow :=
  let ds := readCsvShadow
    ({"UID", "iso2", "iso3", "code3", "FIPS", "Admin2", "Province_State",
      "Country_Region", "Lat", "Long_", "Combined_Key", "Population"} ∪
      dateCols)
  let ds := renameDs
    [("Country_Region", "country"), ("Province_State", "state"),
      ("Admin2", "county"), ("Lat", "lat"), ("Long_", "lon"),
      ("Population", "population")] ds
  let ds := setCoordsDs
    ["country", "state", "county", "lat", "lon", "population"] ds
  let ds := dropDs ["UID", "iso2", "iso3", "code3", "FIPS", "Combined_Key"] ds
  let da := toArrayDs "date" ds
  let da := assignCoordsDa ["time", "location"] da
  let da := swapDimsDa [("date", "time"), ("index", "location")] da
  dropDa ["index", "date", "county"] da

/-- `tmp.to_xarray()` for the three-key groupby of `istat_to_xarray`:
each group key becomes a dimension with a same-named coordinate; the six
aggregated year columns are the data variables. -/
def istatGroupbyShadow : DsShadow :=
  ⟨{"time", "age_class", "NOME_COMUNE"}, {"time", "age_class", "NOME_COMUNE"},
    {"2015", "2016", "2017", "2018", "2019", "2020"}⟩

/-- Name-level shadow of the canonical array returned (second component)
by `istat_to_xarray`: rename `NOME_COMUNE → location`, `fillna(0)` (no
name change), `to_array("year")`, then assign `region`, `province` and
the integer-cast `year` coordinate. -/
def istat_shadow : DaShadow :=
  let ds := renameDs [("NOME_COMUNE", "location")] istatGroupbyShadow
  let da := toArrayDs "year" ds
  assignCoordsDa ["region", "province", "year"] da

instance : DecidableEq (Except CdmError Unit) := fun a b =>
  match a, b with
  | .ok (), .ok () => isTrue rfl
  | .ok (), .error _ => isFalse (by simp)
  | .error _, .ok () => isFalse (by simp)
  | .error e, .error f =>
      if h : e = f then isTrue (by rw [h]) else isFalse (by simp [h])

/-! ## `istat_to_pandas`: day-of-code and age-code decoding -/

/-- `ge2dayofyear` from the source (nested conditional expression). -/
def ge2dayofyear (x : Int) : Int :=
  if x < 132 then x - 101
  else if x < 230 then x - 170
  else if x < 400 then x - 241
  else x - 310

/-- The `time` column of `istat_to_pandas`, as the integer day offset
from 2020-01-01: the source computes
`np.datetime64("2020-01-01") + np.timedelta64(1, "D") * daysofyear`,
i.e. the offset is exactly `ge2dayofyear` of the `GE` code. -/
def istat_time (x : Int) : Int := ge2dayofyear x

/-- Modelled from the claim's words (not the source): the claim asserts
the time is January 1 plus `(d - 1)` days where `d` is the piecewise
day-of-year, i.e. offset `ge2dayofyear x - 1`. -/
def claim_istat_time (x : Int) : Int := ge2dayofyear x - 1

/-- The claim's piecewise day-of-year, written with the claim's guarded
intervals (`x < 132`, `132 ≤ x < 230`, `230 ≤ x < 400`, `x ≥ 400`). -/
def claim_day_of_year (x : Int) : Int :=
  if x < 132 then x - 101
  else if 132 ≤ x ∧ x < 230 then x - 170
  else if 230 ≤ x ∧ x < 400 then x - 241
  else x - 310

/-- `cl_eta2age` from the source.  Python `//` is floor division; the
middle branch is only reached for `10 < x < 19`, where `Int` division
agrees with it. -/
def cl_eta2age (x : Int) : String :=
  if x ≤ 10 then "0-49"
  else if x < 19 then
    toString ((x - 1) / 2 * 10) ++ "-" ++ toString ((x - 1) / 2 * 10 + 9)
  else "90+"

/-- The label table named by the claim: "0-49", the decade brackets
"0-9" through "80-89", and "90+". -/
def ageLabelTable : Finset String :=
  {"0-49", "0-9", "10-19", "20-29", "30-39", "40-49", "50-59", "60-69",
    "70-79", "80-89", "90+"}

/-! ## The two date-header parsers -/

/-- Zero-padded two-digit decimal, as Python's `{:02d}` / `%02d` for the
month/day values that occur in the headers. -/
def pad2 (n : Nat) : String :=
  if n < 10 then "0" ++ toString n else toString n

/-- Python's `d.split("/")`: split at every `/`. -/
def splitSlashAux : List Char → List Char → List String
  | [], acc => [String.mk acc.reverse]
  | c :: cs, acc =>
      if c = '/' then String.mk acc.reverse :: splitSlashAux cs []
      else splitSlashAux cs (c :: acc)

/-- Python's `d.split("/")` on a string. -/
def splitSlash (s : String) : List String := splitSlashAux s.data []

/-- Python's `int(...)` on the nonnegative decimal fields present in the
date headers (`none` embeds the `ValueError` on non-numeric text). -/
def parseNat? (s : String) : Option Nat :=
  if s.data ≠ [] ∧ s.data.all Char.isDigit then
    some (s.data.foldl (fun n c => n * 10 + (c.toNat - '0'.toNat)) 0)
  else none

/-- The date parser of `reformat`:
`"20{2}-{0:02d}-{1:02d}".format(*map(int, d.split("/")))` — the year is
the literal text `20` followed by the unpadded year field. -/
def reformat_parse_date (s : String) : Option String :=
  match (splitSlash s).map parseNat? with
  | [some m, some d, some y] =>
      some ("20" ++ toString y ++ "-" ++ pad2 m ++ "-" ++ pad2 d)
  | _ => none

/-- The date parser of the array builders:
`"2020-%02d-%02d" % tuple(map(int, d.split("/")[:2]))` — the year is
fixed to 2020 and only the first two fields are read. -/
def jhu_parse_date (s : String) : Option String :=
  match ((splitSlash s).take 2).map parseNat? with
  | [some m, some d] => some ("2020-" ++ pad2 m ++ "-" ++ pad2 d)
  | _ => none

/-! ## Location synthesis -/

/-- Python's `str.strip()`: drop leading and trailing whitespace. -/
def pystrip (s : String) : String :=
  String.mk
    (((s.data.dropWhile Char.isWhitespace).reverse.dropWhile
      Char.isWhitespace).reverse)

/-- The location synthesis of `reformat`: `record[country].strip()`,
plus `" - " + record[state].strip()` when `record[state]` is a string
(`isinstance(record[state], str)`).  A missing state cell is `NaN`
(not a string), embedded as `none`. -/
def reformat_location (country : String) (state : Option String) : String :=
  match state with
  | some s => pystrip country ++ " - " ++ pystrip s
  | none => pystrip country

/-- The location synthesis of the array builders:
`" / ".join(i for i in items if i)` — only non-empty fields are
joined. -/
def builder_location (items : List String) : String :=
  " / ".intercalate (items.filter (fun i => i ≠ ""))

/-! ## The accumulation loop of `reformat`

One CSV row of the wide table: country and state cells, the value of
`record.get("Population", 0)` (`none` when the `Population` column is
absent), and the numeric values of the date columns in order. -/

structure WideRecord where
  country : String
  state : Option String
  population : Option Int
  deaths : List Int
  deriving DecidableEq

/-- One entry of the `lines` dict of `reformat`. -/
structure WideLine where
  location : String
  country : String
  deaths : Int
  population : Int
  date : Int
  deriving DecidableEq

/-- The fresh dict entry `setdefault` inserts for a new
`(location, date)` key. -/
def freshLine (loc country : String) (date : Int) : WideLine :=
  ⟨loc, country, 0, 0, date⟩

/-- The location key computed inside the loop of `reformat`. -/
def recLocation (r : WideRecord) : String :=
  reformat_location r.country r.state

/-- The `lines` dict, as an association list in insertion order (Python
dicts preserve insertion order). -/
abbrev WideLines := List ((String × Int) × WideLine)

/-- The two `+=` statements of the loop body applied to a dict entry. -/
def updateCell (r : WideRecord) (d : Int) (l : WideLine) : WideLine :=
  { l with population := l.population + r.population.getD 0,
           deaths := l.deaths + d }

/-- `lines.setdefault(k, init)` followed by in-place mutation `f` of the
returned entry: if `k` is present its entry is updated, otherwise
`f init` is appended. -/
def setdefaultUpdate (k : String × Int) (init : WideLine)
    (f : WideLine → WideLine) : WideLines → WideLines
  | [] => [(k, f init)]
  | (k', v) :: rest =>
      if k = k' then (k', f v) :: rest
      else (k', v) :: setdefaultUpdate k init f rest

/-- The inner loop of `reformat` for one row: one `setdefault`/update per
date column (`enumerate(record[date_start:])` paired positionally with
`dates`). -/
def processRecord (dates : List Int) (ls : WideLines) (r : WideRecord) :
    WideLines :=
  (dates.zip r.deaths).foldl
    (fun ls dd =>
      setdefaultUpdate (recLocation r, dd.1)
        (freshLine (recLocation r) r.country dd.1)
        (updateCell r dd.2) ls)
    ls

/-- The full double loop of `reformat`: rows in order, starting from the
empty dict; the output table is `lines.values()` in insertion order. -/
def reformat_lines (dates : List Int) (records : List WideRecord) :
    WideLines :=
  records.foldl (processRecord dates) []

/-! ## `interp_on_observations` -/

/-- Python's `%` on numbers (floor modulus), for the `values % 360.0`
normalization. -/
def pymod (x m : ℚ) : ℚ := x - m * ⌊x / m⌋

/-- Shadow of the gridded array: its dimension names and the grid's
coordinate values along each dimension. -/
structure Gridded where
  dims : List String
  coord : String → List ℚ

/-- The observation coordinate set: named coordinate arrays.  Coordinate
values (including the observation identities) are embedded as `ℚ`. -/
structure Observed where
  entries : List (String × List ℚ)

def Observed.get (o : Observed) (k : String) : List ℚ :=
  (o.entries.lookup k).getD []

/-- `set(gridded.dims) & set(observed)`, iterated in the gridded array's
dimension order (Python set iteration order is unspecified but is used
consistently inside one call). -/
def interpDims (g : Gridded) (o : Observed) : List String :=
  g.dims.filter (fun d => (o.entries.lookup d).isSome)

/-- The `coords` dict of the source: observed values per shared
dimension, with `lon` normalized by `% 360.0`. -/
def normCoord (o : Observed) (d : String) : List ℚ :=
  if d = "lon" then (o.get d).map (fun x => pymod x 360) else o.get d

/-- Length of Python's `zip(*cols)`: the minimum column length (zero
columns yield an empty zip). -/
def minLen : List (List ℚ) → Nat
  | [] => 0
  | c :: cs => cs.foldl (fun m l => min m l.length) c.length

/-- Python's `zip(*cols)`: the `j`-th tuple takes the `j`-th element of
each column, for `j` below every column length. -/
def zipTuples (cols : List (List ℚ)) : List (List ℚ) :=
  match cols with
  | [] => []
  | _ => (List.range (minLen cols)).map (fun j => cols.map (fun l => l.getD j 0))

/-- Python's `abs` on exact numeric values. -/
def ratAbs (x : ℚ) : ℚ := if x < 0 then -x else x

/-- `sel(..., method="nearest")` along one dimension: the grid value
minimizing the absolute distance to the target (first wins on ties). -/
def nearest : List ℚ → ℚ → ℚ
  | [], _ => 0
  | g :: gs, x =>
      gs.foldl (fun b c => if ratAbs (c - x) < ratAbs (b - x) then c else b) g

/-- The `interpolated` list of the source: one nearest-selection per
zipped tuple of shared-dimension values, recording per dimension the
selected grid value. -/
def selections (g : Gridded) (o : Observed) : List (List (String × ℚ)) :=
  let dims := interpDims g o
  (zipTuples (dims.map (normCoord o))).map
    (fun tup => (dims.zip tup).map (fun dv => (dv.1, nearest (g.coord dv.1) dv.2)))

/-- Shadow of the result of `interp_on_observations`: the concatenation
axis named `index`, its length, the coordinate reattached on it
(`observed[index]`, not normalized), and the per-point selections. -/
structure PointResult where
  indexName : String
  count : Nat
  indexCoord : List ℚ
  slices : List (List (String × ℚ))
  deriving DecidableEq

/-- `interp_on_observations` from the source: build the per-point
selections, concatenate them along `index`, and reattach the original
observed identities as the `index` coordinate. -/
def interp_on_observations (g : Gridded) (o : Observed)
    (index : String) : PointResult :=
  let interpolated := selections g o
  ⟨index, interpolated.length, o.get index, interpolated⟩

/-! ## Dense fill of `istat_to_xarray` -/

/-- One group of `istat.groupby(["time", "age_class", "NOME_COMUNE"])`
after `.agg`: the key and the six summed year columns (2015..2020);
`none` embeds `NaN`. -/
structure IstatGroup where
  time : Int
  age_class : String
  location : String
  totals : List (Option ℚ)
  deriving DecidableEq

/-- The group-key predicate for one dense cell. -/
def groupKeyMatch (t : Int) (a l : String) (g : IstatGroup) : Bool :=
  g.time == t && g.age_class == a && g.location == l

/-- One cell of the canonical array of `istat_to_xarray`:
`tmp.to_xarray()` densifies the grouped table over the full key product
(missing combinations become `NaN`), `.fillna(0)` replaces every `NaN`
by `0`, and `.to_array("year")` indexes the six year columns by `y`. -/
def istat_cell (groups : List IstatGroup) (y : Nat) (t : Int)
    (a l : String) : ℚ :=
  match groups.find? (groupKeyMatch t a l) with
  | some g => (g.totals.getD y none).getD 0
  | none => 0

/-! ## Concrete inputs used by the witnesses -/

/-- A wide-table row: country "A", no state cell, no `Population`
column, death count 5 in the single date column. -/
def wideRecA : WideRecord := ⟨"A", none, none, [5]⟩

/-- A second wide-table row with the same location key and death
count 3. -/
def wideRecB : WideRecord := ⟨"A", none, none, [3]⟩

/-- A demonstration grid: a single `lon` dimension with cells at 0 and
340 (stored in `[0, 360)`). -/
def demoGrid : Gridded := ⟨["lon"], fun _ => [0, 340]⟩

/-- Demonstration observations: two points with longitudes −10 and 20
and identities 1 and 2. -/
def demoObs : Observed := ⟨[("lon", [-10, 20]), ("location", [1, 2])]⟩

/-! ## Shared helper lemmas -/

/-- `ratAbs` agrees with the mathematical absolute value. -/
theorem ratAbs_eq_abs (x : ℚ) : ratAbs x = |x| := by
  unfold ratAbs
  rcases lt_or_le x 0 with h | h
  · rw [if_pos h, abs_of_neg h]
  · rw [if_neg (not_lt.mpr h), abs_of_nonneg h]

/-- Folding `min` of lengths over columns that all have length `N`
starting from `N` stays `N`. -/
theorem foldl_min_len (N : Nat) (cs : List (List ℚ))
    (h : ∀ c ∈ cs, c.length = N) :
    cs.foldl (fun m l => min m l.length) N = N := by
  induction cs with
  | nil => rfl
  | cons c cs ih =>
      have hc : c.length = N := h c (by simp)
      simp only [List.foldl_cons, hc, min_self]
      exact ih (fun x hx => h x (by simp [hx]))

/-- A nonempty family of columns of common length `N` has minimum
length `N`. -/
theorem minLen_const (N : Nat) (cols : List (List ℚ)) (hne : cols ≠ [])
    (h : ∀ c ∈ cols, c.length = N) : minLen cols = N := by
  match cols with
  | [] => exact absurd rfl hne
  | c :: cs =>
      have hc : c.length = N := h c (by simp)
      have hm : minLen (c :: cs)
          = cs.foldl (fun m l => min m l.length) c.length := rfl
      rw [hm, hc]
      exact foldl_min_len N cs (fun x hx => h x (by simp [hx]))

/-- `zip(*cols)` over a nonempty family of equal-length columns yields
one tuple per common index. -/
theorem zipTuples_length (N : Nat) (cols : List (List ℚ)) (hne : cols ≠ [])
    (h : ∀ c ∈ cols, c.length = N) : (zipTuples cols).length = N := by
  unfold zipTuples
  match cols with
  | [] => exact absurd rfl hne
  | c :: cs => simp [minLen_const N (c :: cs) hne h]

/-- Longitude normalization does not change the number of observation
points. -/
theorem normCoord_length (o : Observed) (d : String) :
    (normCoord o d).length = (o.get d).length := by
  unfold normCoord
  split <;> simp

/-- Reading a list back positionally recovers it. -/
theorem range_getD (l : List ℚ) :
    (List.range l.length).map (fun j => l.getD j 0) = l := by
  induction l with
  | nil => rfl
  | cons a l ih =>
      rw [List.length_cons, List.range_succ_eq_map, List.map_cons, List.map_map]
      simp only [Function.comp_def, List.getD_cons_succ, List.getD_cons_zero]
      rw [ih]

/-- `zip(*[l])` is the list of one-element tuples of `l`. -/
theorem zipTuples_singleton (l : List ℚ) :
    zipTuples [l] = l.map (fun x => [x]) := by
  have h : zipTuples [l] =
      (List.range (minLen [l])).map (fun j => [l].map (fun c => c.getD j 0)) := rfl
  have hm : minLen [l] = l.length := rfl
  rw [h, hm]
  simp only [List.map_cons, List.map_nil]
  rw [show (fun j => [l.getD j 0]) = (fun x => [x]) ∘ (fun j => l.getD j 0) from rfl,
    ← List.map_map, range_getD]

/-- Python's `x % 360.0` always lands in `[0, 360)`. -/
theorem pymod_bounds (x : ℚ) : 0 ≤ pymod x 360 ∧ pymod x 360 < 360 := by
  have h : pymod x 360 = 360 * Int.fract (x / 360) := by
    unfold pymod Int.fract
    ring
  constructor
  · rw [h]
    exact mul_nonneg (by norm_num) (Int.fract_nonneg _)
  · rw [h]
    calc 360 * Int.fract (x / 360) < 360 * 1 :=
          mul_lt_mul_of_pos_left (Int.fract_lt_one _) (by norm_num)
      _ = 360 := by norm_num

/-- Resampling a one-dimensional grid against observations that share
exactly that dimension: one nearest-selection per (normalized) observed
value. -/
theorem selections_single (dim : String) (coordFn : String → List ℚ)
    (xs ids : List ℚ) :
    selections ⟨[dim], coordFn⟩ ⟨[(dim, xs), ("location", ids)]⟩
      = (normCoord ⟨[(dim, xs), ("location", ids)]⟩ dim).map
          (fun v => [(dim, nearest (coordFn dim) v)]) := by
  have hdims : interpDims ⟨[dim], coordFn⟩ ⟨[(dim, xs), ("location", ids)]⟩
      = [dim] := by
    simp [interpDims, List.lookup]
  unfold selections
  rw [hdims]
  simp only [List.map_cons, List.map_nil]
  rw [zipTuples_singleton, List.map_map]
  simp [Function.comp]

/-- The first named coordinate array of an observation set. -/
theorem obs_get_head (dim : String) (xs ids : List ℚ) :
    Observed.get ⟨[(dim, xs), ("location", ids)]⟩ dim = xs := by
  simp [Observed.get, List.lookup]

/-! ## Claim theorems -/

/-- C1 counterexample: the claim asserts `cdm_check` raises no error on
any builder result, but the array built by `jhu_usa_to_xarray` keeps
`population` as a coordinate, which is outside `CDM_COORDS`, so
`cdm_check` raises the invalid-coordinates error carrying exactly
`{population}`. -/
theorem C1_counterexample :
    cdm_check (jhu_usa_shadow ∅) = .error (.invalidCoords {"population"}) := by
  decide

/-- C1 (amended): for every set of date columns, the arrays built by
`jhu_global_to_xarray` and `istat_to_xarray` have dimension and
coordinate names inside the CDM vocabularies (`cdm_check` returns
normally on them); the `jhu_usa_to_xarray` array satisfies the dimension
half of the claim but carries the extra coordinate `population`, on
which `cdm_check` raises `InvalidCoordinates {population}`. -/
theorem C1_cdm_closure_amended (dateCols : Finset String) :
    cdm_check (jhu_global_shadow dateCols) = .ok ()
  ∧ cdm_check istat_shadow = .ok ()
  ∧ (jhu_usa_shadow dateCols).dims ⊆ CDM_DIMS
  ∧ cdm_check (jhu_usa_shadow dateCols)
      = .error (.invalidCoords {"population"}) := by
  have hg : jhu_global_shadow dateCols =
      ⟨{"time", "location"}, {"country", "lat", "lon", "time", "location"}⟩ := rfl
  have hu : jhu_usa_shadow dateCols =
      ⟨{"time", "location"},
        {"country", "state", "lat", "lon", "population", "time", "location"}⟩ := rfl
  rw [hg, hu]
  exact ⟨by decide, by decide, by decide, by decide⟩

/-- C2 counterexample: the claim anchors the time at January 1 plus
`(d − 1)` days; at registry code 101 the code assigns offset 0
(2020-01-01) while the claim's formula gives offset −1 (2019-12-31). -/
theorem C2_counterexample :
    istat_time 101 = 0 ∧ claim_istat_time 101 = -1
  ∧ istat_time 101 ≠ claim_istat_time 101 := by decide

/-- C2 (amended): `istat_to_pandas` assigns each `GE` code `x` the time
2020-01-01 plus `d` days (not `d − 1`), where `d` is exactly the
claimed piecewise day-of-year; in particular code 101 maps to offset 0
(2020-01-01), the second branch ends at 229 (offset 59), and 400 falls
in the fourth branch (offset 90). -/
theorem C2_day_of_code_amended (x : Int) :
    istat_time x = claim_day_of_year x
  ∧ istat_time 101 = 0 ∧ istat_time 131 = 30 ∧ istat_time 132 = -38
  ∧ istat_time 229 = 59 ∧ istat_time 230 = -11 ∧ istat_time 400 = 90 := by
  refine ⟨?_, by decide, by decide, by decide, by decide, by decide, by decide⟩
  unfold istat_time ge2dayofyear claim_day_of_year
  split_ifs <;> omega

/-- C3 counterexample: the claim maps age code 11 to "0-9", but
`cl_eta2age` computes `(11 − 1) // 2 * 10 = 50`, giving "50-59". -/
theorem C3_counterexample :
    cl_eta2age 11 = "50-59" ∧ cl_eta2age 11 ≠ "0-9" := by decide

/-- C3 (amended): `cl_eta2age` maps code 10 to "0-49", code 11 to
"50-59" (not "0-9"), code 18 to "80-89" and code 19 to "90+", and every
integer code lands in the claimed label table (no out-of-table
label). -/
theorem C3_age_buckets_amended :
    cl_eta2age 10 = "0-49" ∧ cl_eta2age 11 = "50-59"
  ∧ cl_eta2age 18 = "80-89" ∧ cl_eta2age 19 = "90+"
  ∧ ∀ x : Int, cl_eta2age x ∈ ageLabelTable := by
  refine ⟨by decide, by decide, by decide, by decide, fun x => ?_⟩
  unfold cl_eta2age ageLabelTable
  by_cases h10 : x ≤ 10
  · simp [h10]
  · by_cases h19 : x < 19
    · rw [if_neg h10, if_pos h19]
      interval_cases x <;> decide
    · simp [h10, h19]

/-- C4 counterexample: the two date parsers do not agree on every
`M/D/YY` header: on "3/14/21" the wide-table parser yields 2021-03-14
while the array builders fix the year to 2020. -/
theorem C4_counterexample :
    reformat_parse_date "3/14/21" = some "2021-03-14"
  ∧ jhu_parse_date "3/14/21" = some "2020-03-14"
  ∧ reformat_parse_date "3/14/21" ≠ jhu_parse_date "3/14/21" := by
  exact ⟨by decide, by decide, by decide⟩

/-- C4 (amended): on every header whose three fields parse as
month/day/year with year field exactly 20, both parsers produce the
same `2020-MM-DD` calendar date; in particular both parse "3/14/20" to
2020-03-14 (witnessed separately). -/
theorem C4_parsers_agree_amended (s : String) (m d : Nat)
    (h : (splitSlash s).map parseNat? = [some m, some d, some 20]) :
    reformat_parse_date s = some ("2020-" ++ pad2 m ++ "-" ++ pad2 d)
  ∧ jhu_parse_date s = reformat_parse_date s := by
  have hfst : ((splitSlash s).take 2).map parseNat? = [some m, some d] := by
    rw [List.map_take, h]
    rfl
  constructor
  · simp [reformat_parse_date, h]
    rfl
  · simp [jhu_parse_date, reformat_parse_date, hfst, h]
    rfl

/-- C4 witness: both parsers send "3/14/20" to 2020-03-14. -/
theorem C4_witness :
    (splitSlash "3/14/20").map parseNat? = [some 3, some 14, some 20]
  ∧ reformat_parse_date "3/14/20" = some "2020-03-14"
  ∧ jhu_parse_date "3/14/20" = reformat_parse_date "3/14/20" := by
  have h : (splitSlash "3/14/20").map parseNat? = [some 3, some 14, some 20] := by
    decide
  have h2 := C4_parsers_agree_amended "3/14/20" 3 14 h
  exact ⟨h, h2.1, h2.2⟩

/-- C5 counterexample: when the state cell is the empty string (a
string, hence passing `isinstance(..., str)`), `reformat` still appends
the separator, producing "Italy - " — an empty trailing segment — where
the claim requires "Italy". -/
theorem C5_counterexample :
    reformat_location "Italy" (some "") = "Italy - "
  ∧ reformat_location "Italy" (some "") ≠ "Italy" := by
  exact ⟨by decide, by decide⟩

/-- C5 (amended): in `reformat` the location is the stripped country
alone exactly when the state cell is missing (`NaN`); when the state
cell is any string — the empty string included — the separator and the
stripped state are appended, so an empty or whitespace-only state
string yields a trailing separator.  The array builders join only the
non-empty geography fields, omitting empty segments. -/
theorem C5_location_join_amended :
    (∀ c : String, reformat_location c none = pystrip c)
  ∧ (∀ c s : String,
      reformat_location c (some s) = pystrip c ++ " - " ++ pystrip s)
  ∧ reformat_location "Italy" none = "Italy"
  ∧ reformat_location "US" (some "California") = "US - California"
  ∧ builder_location ["US", "California"] = "US / California"
  ∧ builder_location ["Italy", ""] = "Italy"
  ∧ builder_location ["", "US", "", "California"] = "US / California" := by
  refine ⟨fun c => rfl, fun c s => rfl, by decide, by decide, by decide,
    by decide, by decide⟩

/-- C6: two rows mapping to the same `(location, date)` key accumulate:
their death counts and populations sum into a single output row (a
missing `Population` column contributes 0 through `Option.getD`), and a
key arising from exactly one row appears exactly once with that row's
values. -/
theorem C6_aggregation (t d1 d2 : Int) (r1 r2 : WideRecord)
    (hloc : recLocation r1 = recLocation r2)
    (h1 : r1.deaths = [d1]) (h2 : r2.deaths = [d2]) :
    reformat_lines [t] [r1, r2] =
      [((recLocation r1, t),
        ⟨recLocation r1, r1.country, d1 + d2,
          r1.population.getD 0 + r2.population.getD 0, t⟩)]
  ∧ reformat_lines [t] [r1] =
      [((recLocation r1, t),
        ⟨recLocation r1, r1.country, d1, r1.population.getD 0, t⟩)] := by
  constructor
  · simp [reformat_lines, processRecord, h1, h2, setdefaultUpdate, updateCell,
      freshLine, ← hloc]
  · simp [reformat_lines, processRecord, h1, setdefaultUpdate, updateCell,
      freshLine]

/-- C6 witness: death counts 5 and 3 at the same key combine to 8 in a
single output row; the single-row table keeps count 5 once. -/
theorem C6_witness :
    reformat_lines [0] [wideRecA, wideRecB] =
      [(("A", 0), ⟨"A", "A", 8, 0, 0⟩)]
  ∧ reformat_lines [0] [wideRecA] = [(("A", 0), ⟨"A", "A", 5, 0, 0⟩)] := by
  have h := C6_aggregation 0 5 3 wideRecA wideRecB rfl rfl rfl
  exact ⟨h.1, h.2⟩

/-- C7: `cdm_check` raises the invalid-dimensions error carrying exactly
the offending names iff the dimension set is not a subset of `CDM_DIMS`;
otherwise it raises the invalid-coordinates error carrying exactly the
offending names iff the coordinate set is not a subset of `CDM_COORDS`;
otherwise it returns normally.  (The embedding is a pure function of the
array, which is therefore left unchanged in all cases.) -/
theorem C7_cdm_check_spec (da : DaShadow) :
    cdm_check da =
      (if ¬ da.dims ⊆ CDM_DIMS then
        .error (.invalidDims (da.dims \ CDM_DIMS))
      else if ¬ da.coords ⊆ CDM_COORDS then
        .error (.invalidCoords (da.coords \ CDM_COORDS))
      else .ok ()) := by
  unfold cdm_check
  simp only [ne_eq, Finset.sdiff_eq_empty_iff_subset]

/-- C8: when the shared-dimension coordinate arrays all have length `N`
(and at least one dimension is shared), the result of
`interp_on_observations` concatenates exactly `N` per-point slices
along the index axis, and its index coordinate is exactly the observed
input's original (non-normalized) index coordinate. -/
theorem C8_point_count (g : Gridded) (o : Observed) (index : String) (N : Nat)
    (hne : interpDims g o ≠ [])
    (hlen : ∀ d ∈ interpDims g o, (o.get d).length = N) :
    (interp_on_observations g o index).count = N
  ∧ (interp_on_observations g o index).indexCoord = o.get index := by
  refine ⟨?_, rfl⟩
  show (selections g o).length = N
  unfold selections
  rw [List.length_map]
  refine zipTuples_length N _ ?_ ?_
  · simpa using hne
  · intro c hc
    rcases List.mem_map.mp hc with ⟨d, hd, rfl⟩
    rw [normCoord_length]
    exact hlen d hd

/-- C8 witness: two observation points against the demonstration grid
yield a result with exactly two entries carrying the original
identities 1 and 2. -/
theorem C8_witness :
    interpDims demoGrid demoObs ≠ []
  ∧ (∀ d ∈ interpDims demoGrid demoObs, (demoObs.get d).length = 2)
  ∧ (interp_on_observations demoGrid demoObs "location").count = 2
  ∧ (interp_on_observations demoGrid demoObs "location").indexCoord = [1, 2] := by
  have h1 : interpDims demoGrid demoObs ≠ [] := by decide
  have h2 : ∀ d ∈ interpDims demoGrid demoObs, (demoObs.get d).length = 2 := by
    decide
  have h := C8_point_count demoGrid demoObs "location" 2 h1 h2
  exact ⟨h1, h2, h.1, by rw [h.2]; decide⟩

/-- C9: observed longitudes are normalized by `% 360` into `[0, 360)`
before nearest-selection while other shared dimensions pass through
raw; an observed longitude of −10 is matched as 350, so on the
demonstration grid stored in `[0, 360)` it selects the cell 340
(nearest to 350), not the cell 0 that is nearest to −10. -/
theorem C9_lon_wraparound :
    (∀ (coordFn : String → List ℚ) (xs ids : List ℚ),
      selections ⟨["lon"], coordFn⟩ ⟨[("lon", xs), ("location", ids)]⟩
        = xs.map (fun x => [("lon", nearest (coordFn "lon") (pymod x 360))]))
  ∧ (∀ (coordFn : String → List ℚ) (xs ids : List ℚ),
      selections ⟨["lat"], coordFn⟩ ⟨[("lat", xs), ("location", ids)]⟩
        = xs.map (fun x => [("lat", nearest (coordFn "lat") x)]))
  ∧ (∀ x : ℚ, 0 ≤ pymod x 360 ∧ pymod x 360 < 360)
  ∧ pymod (-10) 360 = 350
  ∧ (interp_on_observations demoGrid ⟨[("lon", [-10]), ("location", [7])]⟩
      "location").slices = [[("lon", 340)]]
  ∧ nearest [0, 340] 350 = 340
  ∧ nearest [0, 340] (-10) = 0 := by
  have hmod : pymod (-10) 360 = 350 := by
    unfold pymod
    norm_num
  have hlon : ∀ (coordFn : String → List ℚ) (xs ids : List ℚ),
      selections ⟨["lon"], coordFn⟩ ⟨[("lon", xs), ("location", ids)]⟩
        = xs.map (fun x => [("lon", nearest (coordFn "lon") (pymod x 360))]) := by
    intro coordFn xs ids
    rw [selections_single]
    simp [normCoord, obs_get_head, List.map_map, Function.comp]
  refine ⟨hlon, ?_, pymod_bounds, hmod, ?_, by norm_num [nearest, ratAbs],
    by norm_num [nearest, ratAbs]⟩
  · intro coordFn xs ids
    rw [selections_single]
    simp [normCoord, obs_get_head]
  · show selections demoGrid ⟨[("lon", [-10]), ("location", [7])]⟩
      = [[("lon", 340)]]
    have h := hlon demoGrid.coord [-10] [7]
    have hg : demoGrid = ⟨["lon"], demoGrid.coord⟩ := rfl
    rw [hg] at *
    rw [h, List.map_cons, List.map_nil, hmod]
    norm_num [nearest, ratAbs, demoGrid]

/-- C10: a `(year, time, age_class, location)` cell of the canonical
istat array that corresponds to no group of the aggregated table holds
the numeric value 0 (the dense reshape introduces the combination as
missing and `fillna(0)` replaces it; the cell type of the embedding is
a total numeric value, never a missing one). -/
theorem C10_dense_fill (groups : List IstatGroup) (y : Nat) (t : Int)
    (a l : String) (h : groups.find? (groupKeyMatch t a l) = none) :
    istat_cell groups y t a l = 0 := by
  unfold istat_cell
  rw [h]

/-- C10 witness: a one-group table has no group for location "Milano",
and the corresponding dense cell is 0. -/
theorem C10_witness :
    ([⟨0, "0-49", "Roma", [some 1, none]⟩] : List IstatGroup).find?
      (groupKeyMatch 0 "0-49" "Milano") = none
  ∧ istat_cell [⟨0, "0-49", "Roma", [some 1, none]⟩] 0 0 "0-49" "Milano" = 0 := by
  have h : ([⟨0, "0-49", "Roma", [some 1, none]⟩] : List IstatGroup).find?
      (groupKeyMatch 0 "0-49" "Milano") = none := by
    decide
  exact ⟨h, C10_dense_fill _ 0 0 "0-49" "Milano" h⟩

end Covid19
